import Mathlib

/-!
Verification development for the `openemr-on-ecs` credential-rotation tool.

The repository's hard core is `tools/credential-rotation`: a dual-slot
credential rotation state machine with atomic config rewriting, three-way
disk/secret reconciliation, rollback on failed validation, and dry-run
support.  This file gives a shallow embedding of that subsystem and of the
deployment-time secret creation in `openemr_ecs/database.py`, and proves the
specified properties about it.

Modules `config_discovery.py`, `app_refresh.py` and `database.py` are
embedded directly from their source.  The modules `efs_editor.py`,
`rotate.py` and `secrets.py` are not part of the provided sources (only
their tests are), so their behaviour is modelled from the specification;
each such definition carries a doc comment saying so.
-/

namespace CredentialRotation

/-- A credential record as stored in one slot of the dual-slot secret and as
written into `sqlconf.php` (`host`, `port`, `login`/`username`,
`pass`/`password`, `dbase`/`dbname`). -/
structure Cred where
  username : String
  password : String
  host : String
  port : String
  dbname : String
deriving DecidableEq, Repr

/-- The dual-slot secret payload:
`{"active_slot": "A"|"B", "A": {...}, "B": {...}}`. -/
structure SlotsPayload where
  active_slot : String
  A : Cred
  B : Cred
deriving DecidableEq, Repr

/-- Look up a slot record by name; `"A"` selects slot `A`, anything else
selects slot `B` (the payload only ever holds the two names). -/
def SlotsPayload.slot (p : SlotsPayload) (name : String) : Cred :=
  if name = "A" then p.A else p.B

/-- Replace the record held by the named slot. -/
def SlotsPayload.setSlot (p : SlotsPayload) (name : String) (c : Cred) : SlotsPayload :=
  if name = "A" then { p with A := c } else { p with B := c }

/-- Modelled from the spec: `secrets.py` is not in the provided sources.  The
secret-store client exposes a pure helper `standby_slot(active)` mapping
`"A"` to `"B"` and `"B"` to `"A"` (the test fake in
`test_mismatch_guard.py` implements it as `"B" if active == "A" else "A"`). -/
def standby_slot (active : String) : String :=
  if active = "A" then "B" else "A"

/-! ## Runtime config discovery (`config_discovery.py`, embedded from source) -/
/-- Resolved runtime paths used by the rotation process
(`RuntimeConfigPaths` in `config_discovery.py`); the dataclass is frozen,
so the descriptor is immutable. -/
structure RuntimeConfigPaths where
  sqlconf_path : String
  cache_config_path : Option String
deriving DecidableEq, Repr

/-- `discover_runtime_paths` from `config_discovery.py`.  The filesystem is
abstracted as the predicate `fs_exists` (the result of `Path.exists`).  The
function resolves `<sites_mount_root>/default/sqlconf.php`, raises
`FileNotFoundError` when it is absent, and otherwise returns the descriptor
with `cache_config_path = None` (this deployment does not persist cache
auth settings to a file). -/
def discover_runtime_paths (fs_exists : String → Bool) (sites_mount_root : String) :
    Except String RuntimeConfigPaths :=
  let sqlconf_path := sites_mount_root ++ "/default/sqlconf.php"
  if fs_exists sqlconf_path then
    .ok { sqlconf_path := sqlconf_path, cache_config_path := none }
  else
    .error ("OpenEMR sqlconf.php not found at discovered path: " ++ sqlconf_path)

/-! ## Application refresher (`app_refresh.py`, embedded from source) -/
/-- A call made against the ECS control plane by `force_new_ecs_deployment`:
either the `update_service(..., forceNewDeployment=True)` call or one
polling attempt of the `services_stable` waiter. -/
inductive EcsCall where
  | update_service (cluster service : String) (forceNewDeployment : Bool)
  | describe_services (cluster service : String)
deriving DecidableEq, Repr

/-- The waiter configuration passed in `app_refresh.py`:
`WaiterConfig={"Delay": 15, "MaxAttempts": 120}`. -/
def waiterDelaySeconds : Nat := 15

/-- `MaxAttempts` of the `services_stable` waiter in `app_refresh.py`. -/
def waiterMaxAttempts : Nat := 120

/-- The `services_stable` waiter, result side: poll the service state
(abstracted as the oracle `stable`, giving the outcome of each numbered
attempt) until it reports stable, making at most `fuel` attempts; when the
attempts are exhausted it raises a waiter error.  Returns the number of the
successful attempt. -/
def waiter_result (stable : Nat → Bool) : Nat → Nat → Except String Nat
  | 0, _ => .error "Waiter ServicesStable failed: Max attempts exceeded"
  | fuel + 1, attempt =>
    if stable attempt then .ok attempt else waiter_result stable fuel (attempt + 1)

/-- The `services_stable` waiter, call-trace side: the polling calls the
waiter issues against the cluster/service pair. -/
def waiter_calls (stable : Nat → Bool) (cluster service : String) : Nat → Nat → List EcsCall
  | 0, _ => []
  | fuel + 1, attempt =>
    if stable attempt then [.describe_services cluster service]
    else .describe_services cluster service :: waiter_calls stable cluster service fuel (attempt + 1)

/-- `force_new_ecs_deployment` from `app_refresh.py`: issue the forced
rolling deployment of the cluster/service pair, then block on the
`services_stable` waiter with `Delay=15`, `MaxAttempts=120`.  The `region`
argument selects the client; the ECS service itself is abstracted as the
stability oracle.  Returns the trace of ECS calls and the result. -/
def force_new_ecs_deployment (stable : Nat → Bool) (region cluster_name service_name : String) :
    List EcsCall × Except String Unit :=
  (.update_service cluster_name service_name true ::
      waiter_calls stable cluster_name service_name waiterMaxAttempts 0,
    (waiter_result stable waiterMaxAttempts 0).map fun _ => ())

/-! ## Deployment-time slot secret creation (`openemr_ecs/database.py`,
embedded from source) -/
/-- The JSON payload baked into the `RdsSlotSecret` by
`create_rotation_slot_secrets` in `openemr_ecs/database.py`:
`active_slot` is `"A"`, both slots use the cluster endpoint hostname, port
`"3306"`, dbname `"openemr"`, usernames `openemr_a`/`openemr_b`, and both
passwords are the placeholder value. -/
def rotation_slot_secret_payload (hostname : String) : SlotsPayload :=
  { active_slot := "A",
    A := { username := "openemr_a", password := "placeholder", host := hostname,
           port := "3306", dbname := "openemr" },
    B := { username := "openemr_b", password := "placeholder", host := hostname,
           port := "3306", dbname := "openemr" } }

/-- `create_rotation_slot_secrets` from `openemr_ecs/database.py`: raises
`ValueError` when `self.db_instance` is unset (falsy), otherwise creates the
dual-slot secret whose payload embeds the cluster endpoint hostname. -/
def create_rotation_slot_secrets (db_instance : Option String) : Except String SlotsPayload :=
  match db_instance with
  | none => .error "Database cluster must be created before slot secrets"
  | some hostname => .ok (rotation_slot_secret_payload hostname)

/-- Modelled from the spec: the deployment-time caller of
`create_rotation_slot_secrets` is not among the provided sources.  The
spec's lifecycle says the dual-slot secret is "created once at deployment
time", so the deployment is modelled as performing exactly one creation
against the created cluster's endpoint hostname. -/
def deployment_slot_secret_creations (hostname : String) : List (Except String SlotsPayload) :=
  [create_rotation_slot_secrets (some hostname)]

/-! ## Atomic file editor (`efs_editor.py` is not in the provided sources;
modelled from the spec) -/
/-- A file as the editor sees it: its bytes, owning user and permission
bits. -/
structure EditorFile where
  bytes : String
  owner : String
  mode : Nat
deriving DecidableEq, Repr

/-- The filesystem visible around one `atomic_write` call: the target file
and the temporary file (when present). -/
structure EditorFs where
  target : EditorFile
  temp : Option EditorFile
deriving DecidableEq, Repr

/-- Modelled from the spec: `efs_editor.py` is not in the provided sources.
The steps of `atomic_write` per §4.2: write the new contents to a temporary
file in the same directory, flush and sync it to durable storage, rename it
onto the target path (a single atomic syscall), then restore the original
file's owning user and permission bits. -/
inductive EditStep where
  | write_temp
  | sync_temp
  | rename_temp
  | restore_owner
deriving DecidableEq, Repr

/-- The ordered steps `atomic_write` performs. -/
def atomicWriteSteps : List EditStep :=
  [.write_temp, .sync_temp, .rename_temp, .restore_owner]

/-- Effect of one editor step on the visible filesystem.  `tool_owner` and
`tool_mode` are the owner/mode the freshly created temporary file gets
(the rotation tool's own identity); `orig` is the target file found at the
start of the call, whose owner and permission bits are restored at the
end. -/
def applyEditStep (new_bytes tool_owner : String) (tool_mode : Nat) (orig : EditorFile)
    (s : EditorFs) : EditStep → EditorFs
  | .write_temp =>
    { s with temp := some { bytes := new_bytes, owner := tool_owner, mode := tool_mode } }
  | .sync_temp => s
  | .rename_temp =>
    match s.temp with
    | some t => { target := t, temp := none }
    | none => s
  | .restore_owner =>
    { s with target := { s.target with owner := orig.owner, mode := orig.mode } }

/-- Modelled from the spec: run `atomic_write` but stop (crash) after the
first `completed` steps, returning the filesystem an observer then sees.
`completed ≥ 4` is the uninterrupted call. -/
def atomic_write_crash (orig : EditorFile) (new_bytes tool_owner : String) (tool_mode : Nat)
    (completed : Nat) : EditorFs :=
  (atomicWriteSteps.take completed).foldl (applyEditStep new_bytes tool_owner tool_mode orig)
    { target := orig, temp := none }

/-! ## Rotation orchestrator (`rotate.py` is not in the provided sources;
modelled from the spec, §4.4) -/
/-- The parsed credential-bearing fields of `sqlconf.php` together with all
its other content (comments, other settings), which the editor leaves
untouched.  Equality of two `FileContent` values is byte-for-byte equality
of the file. -/
structure FileContent where
  creds : Cred
  rest : String
deriving DecidableEq, Repr

/-- The state the orchestrator can observe or mutate: the on-disk runtime
config file, the dual-slot record in the secret store, and the database
engine's user accounts (username/password pairs). -/
structure World where
  file : FileContent
  secret : SlotsPayload
  dbUsers : List (String × String)
deriving DecidableEq, Repr

/-- `RotationContext` from `rotate.py` (its fields are pinned down by the
tests and §3/§6): the immutable parameters of one rotation run. -/
structure RotationContext where
  region : String
  rds_slots_secret_id : String
  rds_admin_secret_id : String
  sites_mount_root : String
  ecs_cluster_name : String
  ecs_service_name : String
  openemr_health_url : Option String
  dry_run : Bool
deriving DecidableEq, Repr

/-- One externally visible call of the orchestrator: an atomic-editor write
of the config file, a database-user upsert, an application refresh, a
secret-store write, or a read-only validation probe. -/
inductive Effect where
  | atomicWrite (content : FileContent)
  | upsertDbUser (username password : String)
  | appRefresh (cluster service : String)
  | secretPut (secret_id : String) (payload : SlotsPayload)
  | validateRds (c : Cred)
  | validateHealth (url : String)
deriving DecidableEq, Repr

/-- `true` exactly for the effects that mutate external state (file writes,
user upserts, refreshes, secret-store writes); validation probes are
read-only. -/
def Effect.isMutation : Effect → Bool
  | .atomicWrite _ => true
  | .upsertDbUser _ _ => true
  | .appRefresh _ _ => true
  | .secretPut _ _ => true
  | .validateRds _ => false
  | .validateHealth _ => false

/-- `true` exactly for atomic-editor file writes. -/
def Effect.isFileWrite : Effect → Bool
  | .atomicWrite _ => true
  | _ => false

/-- How one rotation run ends. -/
inductive Outcome where
  | dryRunPlanned
  | abortedBeforeFlip
  | rolledBack
  | commitWriteFailed
  | committed
deriving DecidableEq, Repr

/-- The failure oracle for one run: which fallible external steps fail
(standby user provisioning, standby connectivity validation, the
application refresh (timeout), the post-refresh health/connectivity
validation, and the final `active_slot` secret write). -/
structure Failures where
  provision_fails : Bool
  standby_validation_fails : Bool
  refresh_fails : Bool
  post_validation_fails : Bool
  commit_put_fails : Bool
deriving DecidableEq, Repr

/-- The run on which every external step succeeds. -/
def noFailures : Failures :=
  { provision_fails := false, standby_validation_fails := false, refresh_fails := false,
    post_validation_fails := false, commit_put_fails := false }

/-- Modelled from the spec (§4.4 step 2): the three-way reconciliation.
Returns the reconciled in-memory dual-slot payload and the secret-store
writes performed: disk matching the active slot is the steady state; disk
matching the standby slot flips `active_slot` to the disk-indicated slot
(the disk is authoritative); disk matching neither slot bootstraps by
persisting the disk's credentials into the currently active slot.  In
`dry_run` mode the reconciled payload is only computed, never written. -/
def reconcile (ctx : RotationContext) (w : World) : SlotsPayload × List Effect :=
  if w.file.creds = w.secret.slot w.secret.active_slot then
    (w.secret, [])
  else if w.file.creds = w.secret.slot (standby_slot w.secret.active_slot) then
    let s := { w.secret with active_slot := standby_slot w.secret.active_slot }
    (s, if ctx.dry_run then [] else [.secretPut ctx.rds_slots_secret_id s])
  else
    let s := w.secret.setSlot w.secret.active_slot w.file.creds
    (s, if ctx.dry_run then [] else [.secretPut ctx.rds_slots_secret_id s])

/-- The slot the run rotates: the standby of the reconciled active slot. -/
def rotationTarget (ctx : RotationContext) (w : World) : String :=
  standby_slot (reconcile ctx w).1.active_slot

/-- The credential record provisioned into the rotation target: the target
slot's record with a freshly generated password. -/
def provisionedCred (ctx : RotationContext) (w : World) (np : String) : Cred :=
  { (reconcile ctx w).1.slot (rotationTarget ctx w) with password := np }

/-- The dual-slot payload after step 3 persisted the fresh standby password
(so that a later crash in the §7 window still leaves the new password
discoverable in the standby record). -/
def provisionedSecret (ctx : RotationContext) (w : World) (np : String) : SlotsPayload :=
  (reconcile ctx w).1.setSlot (rotationTarget ctx w) (provisionedCred ctx w np)

/-- The dual-slot payload the successful run commits: `active_slot` flipped
to the slot just rotated. -/
def committedSecret (ctx : RotationContext) (w : World) (np : String) : SlotsPayload :=
  { provisionedSecret ctx w np with active_slot := rotationTarget ctx w }

/-- The config file after the on-disk flip: the target slot's new
credentials; everything else in the file is untouched. -/
def flippedFile (ctx : RotationContext) (w : World) (np : String) : FileContent :=
  { creds := provisionedCred ctx w np, rest := w.file.rest }

/-- The world after step 3 (standby password persisted, database user
upserted), before the on-disk flip. -/
def provisionedWorld (ctx : RotationContext) (w : World) (np : String) : World :=
  { w with
    secret := provisionedSecret ctx w np,
    dbUsers := ((provisionedCred ctx w np).username, np) ::
      w.dbUsers.filter fun u => u.1 ≠ (provisionedCred ctx w np).username }

/-- The effects of steps 2-4: reconciliation writes, the standby-password
write, the database-user upsert and the standby connectivity probe. -/
def preFlipTrace (ctx : RotationContext) (w : World) (np : String) : List Effect :=
  (reconcile ctx w).2 ++
    [.secretPut ctx.rds_slots_secret_id (provisionedSecret ctx w np),
     .upsertDbUser (provisionedCred ctx w np).username np,
     .validateRds (provisionedCred ctx w np)]

/-- The effects of steps 2-6: everything up to and including the on-disk
flip and the first application refresh. -/
def flipTrace (ctx : RotationContext) (w : World) (np : String) : List Effect :=
  preFlipTrace ctx w np ++
    [.atomicWrite (flippedFile ctx w np),
     .appRefresh ctx.ecs_cluster_name ctx.ecs_service_name]

/-- The effects of step 7: the post-refresh connectivity probe, plus the
HTTP health probe when a health URL was supplied. -/
def healthTrace (ctx : RotationContext) (w : World) (np : String) : List Effect :=
  .validateRds (provisionedCred ctx w np) ::
    (match ctx.openemr_health_url with
     | some u => [.validateHealth u]
     | none => [])

/-- The effects of the rollback path (§4.4 step 8, failure case; its shape
is pinned down by `test_rollback_restores_original_sqlconf`): restore the
captured pre-flip file content with the atomic editor, force another
application refresh, and re-validate the still-active slot's runtime. -/
def rollbackTrace (ctx : RotationContext) (w : World) (np : String) : List Effect :=
  [.atomicWrite w.file,
   .appRefresh ctx.ecs_cluster_name ctx.ecs_service_name,
   .validateRds ((provisionedSecret ctx w np).slot (reconcile ctx w).1.active_slot)]

/-- Modelled from the spec: `rotate.py` is not in the provided sources.
`RotationOrchestrator.rotate` per §4.4, as a function of the immutable
context, the observed world, the freshly generated standby password and the
failure oracle; it returns the final world, the trace of external calls and
the run's outcome.  `dry_run` short-circuits before any mutating step;
fatal failures in steps 3-4 abort before the file is touched; failures in
steps 6-7 roll the file back and leave `active_slot` untouched; a failure
of the final `active_slot` write leaves the stale bookkeeping that the next
run's reconciliation self-heals (§7). -/
def rotate (ctx : RotationContext) (w : World) (np : String) (f : Failures) :
    World × List Effect × Outcome :=
  if ctx.dry_run then
    (w, [], .dryRunPlanned)
  else if f.provision_fails then
    ({ w with secret := (reconcile ctx w).1 }, (reconcile ctx w).2, .abortedBeforeFlip)
  else if f.standby_validation_fails then
    (provisionedWorld ctx w np, preFlipTrace ctx w np, .abortedBeforeFlip)
  else if f.refresh_fails then
    ({ provisionedWorld ctx w np with file := w.file },
     flipTrace ctx w np ++ rollbackTrace ctx w np, .rolledBack)
  else if f.post_validation_fails then
    ({ provisionedWorld ctx w np with file := w.file },
     flipTrace ctx w np ++ healthTrace ctx w np ++ rollbackTrace ctx w np, .rolledBack)
  else if f.commit_put_fails then
    ({ provisionedWorld ctx w np with file := flippedFile ctx w np },
     flipTrace ctx w np ++ healthTrace ctx w np, .commitWriteFailed)
  else
    ({ provisionedWorld ctx w np with
         file := flippedFile ctx w np, secret := committedSecret ctx w np },
     flipTrace ctx w np ++ healthTrace ctx w np ++
       [.secretPut ctx.rds_slots_secret_id (committedSecret ctx w np)],
     .committed)

/-- Example slot-A credential record (the §8 example scenario). -/
def exCredA : Cred :=
  { username := "openemr_a", password := "pass-a", host := "db-a",
    port := "3306", dbname := "openemr" }

/-- Example slot-B credential record. -/
def exCredB : Cred :=
  { username := "openemr_b", password := "pass-b", host := "db-b",
    port := "3306", dbname := "openemr" }

/-- Example dual-slot payload with slot A active. -/
def exSecret : SlotsPayload := { active_slot := "A", A := exCredA, B := exCredB }

/-- Example rotation context (non-dry run, no health URL), with the field
values used by the repository's tests. -/
def exCtx : RotationContext :=
  { region := "us-east-1", rds_slots_secret_id := "rds", rds_admin_secret_id := "admin",
    sites_mount_root := "/efs/sites", ecs_cluster_name := "cluster",
    ecs_service_name := "service", openemr_health_url := none, dry_run := false }

/-- Example steady-state world: the disk matches the active slot A. -/
def exWorld : World :=
  { file := { creds := exCredA, rest := "<?php" }, secret := exSecret, dbUsers := [] }

/-- Example post-crash world: the disk carries slot B's credentials while
the secret store still says slot A is active. -/
def exWorldStandby : World :=
  { exWorld with file := { creds := exCredB, rest := "<?php" } }

/-- Example first-run world: the disk credentials match neither slot. -/
def exWorldNeither : World :=
  { exWorld with
      file := { creds := { username := "admin", password := "current-secret",
                           host := "db.example.com", port := "3306", dbname := "openemr" },
                rest := "<?php" } }

/-- Example failure oracle: the application refresh times out. -/
def exRefreshFail : Failures := { noFailures with refresh_fails := true }

end CredentialRotation

namespace CredentialRotation

theorem slot_setSlot_same (p : SlotsPayload) (n : String) (c : Cred) :
    (p.setSlot n c).slot n = c := by
  unfold SlotsPayload.slot SlotsPayload.setSlot
  by_cases h : n = "A" <;> simp [h]

theorem slot_setSlot_standby (p : SlotsPayload) (n : String) (c : Cred) :
    (p.setSlot (standby_slot n) c).slot n = p.slot n := by
  unfold SlotsPayload.slot SlotsPayload.setSlot standby_slot
  by_cases h : n = "A" <;> simp [h]

theorem active_setSlot (p : SlotsPayload) (n : String) (c : Cred) :
    (p.setSlot n c).active_slot = p.active_slot := by
  unfold SlotsPayload.setSlot
  by_cases h : n = "A" <;> simp [h]

theorem waiter_calls_length_le (stable : Nat → Bool) (c s : String) (fuel a : Nat) :
    (waiter_calls stable c s fuel a).length ≤ fuel := by
  induction fuel generalizing a with
  | zero => simp [waiter_calls]
  | succ n ih =>
    unfold waiter_calls
    by_cases h : stable a
    · simp [h]
    · simp only [h, Bool.false_eq_true, if_false, List.length_cons]
      exact Nat.succ_le_succ (ih (a + 1))

theorem waiter_result_ok_iff (stable : Nat → Bool) (fuel a : Nat) :
    (∃ n, waiter_result stable fuel a = .ok n) ↔ ∃ k, k < fuel ∧ stable (a + k) := by
  induction fuel generalizing a with
  | zero => simp [waiter_result]
  | succ n ih =>
    unfold waiter_result
    by_cases h : stable a
    · simp only [h, if_true]
      constructor
      · intro _
        exact ⟨0, Nat.succ_pos n, by simpa using h⟩
      · intro _
        exact ⟨a, rfl⟩
    · simp only [h, Bool.false_eq_true, if_false]
      rw [ih (a + 1)]
      constructor
      · rintro ⟨k, hk, hs⟩
        exact ⟨k + 1, Nat.succ_lt_succ hk, by simpa [Nat.add_assoc, Nat.add_comm 1 k] using hs⟩
      · rintro ⟨k, hk, hs⟩
        match k with
        | 0 => exact absurd (by simpa using hs) (by simpa using h)
        | k + 1 =>
          exact ⟨k, Nat.lt_of_succ_lt_succ hk, by simpa [Nat.add_assoc, Nat.add_comm 1 k] using hs⟩

theorem slot_set_active (p : SlotsPayload) (t n : String) :
    ({ p with active_slot := t } : SlotsPayload).slot n = p.slot n := by
  unfold SlotsPayload.slot
  by_cases h : n = "A" <;> simp [h]

theorem slot_setSlot_other (p : SlotsPayload) (n : String) (c : Cred) :
    (p.setSlot n c).slot (standby_slot n) = p.slot (standby_slot n) := by
  unfold SlotsPayload.slot SlotsPayload.setSlot standby_slot
  by_cases h : n = "A" <;> simp [h]

theorem slot_standby_standby (p : SlotsPayload) (n : String) :
    p.slot (standby_slot (standby_slot n)) = p.slot n := by
  unfold SlotsPayload.slot standby_slot
  by_cases h : n = "A" <;> simp [h]

/-- Step 2 establishes the invariant in memory: after reconciliation the
disk's credentials are the reconciled payload's active-slot record, on all
three branches. -/
theorem reconcile_disk_matches_active (ctx : RotationContext) (w : World) :
    w.file.creds = (reconcile ctx w).1.slot (reconcile ctx w).1.active_slot := by
  unfold reconcile
  by_cases h1 : w.file.creds = w.secret.slot w.secret.active_slot
  · rw [if_pos h1]
    exact h1
  · rw [if_neg h1]
    by_cases h2 : w.file.creds = w.secret.slot (standby_slot w.secret.active_slot)
    · rw [if_pos h2]
      show w.file.creds =
        ({ w.secret with active_slot := standby_slot w.secret.active_slot } : SlotsPayload).slot
          (standby_slot w.secret.active_slot)
      rw [slot_set_active]
      exact h2
    · rw [if_neg h2]
      show w.file.creds =
        (w.secret.setSlot w.secret.active_slot w.file.creds).slot
          (w.secret.setSlot w.secret.active_slot w.file.creds).active_slot
      rw [active_setSlot, slot_setSlot_same]

theorem provisionedSecret_active (ctx : RotationContext) (w : World) (np : String) :
    (provisionedSecret ctx w np).active_slot = (reconcile ctx w).1.active_slot := by
  unfold provisionedSecret
  exact active_setSlot _ _ _

theorem provisionedSecret_slot_active (ctx : RotationContext) (w : World) (np : String) :
    (provisionedSecret ctx w np).slot (reconcile ctx w).1.active_slot =
      (reconcile ctx w).1.slot (reconcile ctx w).1.active_slot := by
  unfold provisionedSecret rotationTarget
  exact slot_setSlot_standby _ _ _

theorem committedSecret_slot (ctx : RotationContext) (w : World) (np : String) :
    (committedSecret ctx w np).slot (committedSecret ctx w np).active_slot =
      provisionedCred ctx w np := by
  show ({ provisionedSecret ctx w np with active_slot := rotationTarget ctx w } :
      SlotsPayload).slot (rotationTarget ctx w) = provisionedCred ctx w np
  rw [slot_set_active]
  unfold provisionedSecret
  exact slot_setSlot_same _ _ _

/-- A non-dry run on which every external step succeeds commits: the file
carries the rotated credentials, the secret store's `active_slot` points at
the rotated slot, and the trace is the flip, validation and commit
sequence. -/
theorem rotate_noFailures_eq (ctx : RotationContext) (w : World) (np : String)
    (hdry : ctx.dry_run = false) :
    rotate ctx w np noFailures =
      ({ provisionedWorld ctx w np with
           file := flippedFile ctx w np, secret := committedSecret ctx w np },
       flipTrace ctx w np ++ healthTrace ctx w np ++
         [.secretPut ctx.rds_slots_secret_id (committedSecret ctx w np)],
       .committed) := by
  unfold rotate
  rw [if_neg (by simp [hdry]), if_neg (by decide), if_neg (by decide), if_neg (by decide),
    if_neg (by decide), if_neg (by decide)]

end CredentialRotation

/-- C7: `discover_runtime_paths` fails with a "not found" error exactly when
`<mount_root>/default/sqlconf.php` does not exist; when that file exists it
returns the descriptor whose `sqlconf_path` is that fixed path and whose
`cache_config_path` is always absent. -/
theorem discover_runtime_paths_spec (fs_exists : String → Bool) (root : String) :
    ((∃ e, CredentialRotation.discover_runtime_paths fs_exists root = .error e) ↔
      fs_exists (root ++ "/default/sqlconf.php") = false) ∧
    (∀ r, CredentialRotation.discover_runtime_paths fs_exists root = .ok r →
      r.sqlconf_path = root ++ "/default/sqlconf.php" ∧ r.cache_config_path = none) := by
  unfold CredentialRotation.discover_runtime_paths
  by_cases h : fs_exists (root ++ "/default/sqlconf.php")
  · simp only [h, if_true]
    refine ⟨by simp, ?_⟩
    intro r hr
    simp only [Except.ok.injEq] at hr
    simp [← hr]
  · simp [h]

/-- C8: `force_new_ecs_deployment` first issues the forced redeployment of
the named cluster/service pair, then polls for stability at most 120 times
spaced 15 seconds apart — so the total waiting time is bounded by
`15 * 120 = 1800` seconds (thirty minutes) — and always yields a definite
result: success exactly when some polling attempt within the bound reports
the service stable, and an error when the bound is exhausted. -/
theorem force_new_ecs_deployment_spec (stable : Nat → Bool) (region cluster service : String) :
    (CredentialRotation.force_new_ecs_deployment stable region cluster service).1.head? =
      some (.update_service cluster service true) ∧
    ((CredentialRotation.force_new_ecs_deployment stable region cluster service).2.isOk = true ↔
      ∃ k, k < 120 ∧ stable k) ∧
    (CredentialRotation.force_new_ecs_deployment stable region cluster service).1.length - 1 ≤
      CredentialRotation.waiterMaxAttempts ∧
    CredentialRotation.waiterDelaySeconds *
      ((CredentialRotation.force_new_ecs_deployment stable region cluster service).1.length - 1) ≤
      1800 := by
  have hlen := CredentialRotation.waiter_calls_length_le stable cluster service
    CredentialRotation.waiterMaxAttempts 0
  have hok := CredentialRotation.waiter_result_ok_iff stable
    CredentialRotation.waiterMaxAttempts 0
  refine ⟨rfl, ?_, ?_, ?_⟩
  · unfold CredentialRotation.force_new_ecs_deployment
    rcases hm : CredentialRotation.waiter_result stable CredentialRotation.waiterMaxAttempts 0
      with e | n
    · simp only [hm, Except.map, Except.isOk, Except.toBool, Bool.false_eq_true, false_iff,
        not_exists, not_and]
      intro k hk hs
      rcases hok.mpr ⟨k, by simpa [CredentialRotation.waiterMaxAttempts] using hk,
          by simpa using hs⟩ with ⟨m, hm2⟩
      rw [hm] at hm2
      exact Except.noConfusion hm2
    · simp only [hm, Except.map, Except.isOk, Except.toBool, eq_self_iff_true, true_iff]
      have := hok.mp ⟨n, hm⟩
      simpa [CredentialRotation.waiterMaxAttempts] using this
  · simpa [CredentialRotation.force_new_ecs_deployment] using hlen
  · have hb : (CredentialRotation.force_new_ecs_deployment stable region cluster service).1.length - 1 ≤
        CredentialRotation.waiterMaxAttempts := by
      simpa [CredentialRotation.force_new_ecs_deployment] using hlen
    calc CredentialRotation.waiterDelaySeconds *
        ((CredentialRotation.force_new_ecs_deployment stable region cluster service).1.length - 1) ≤
        CredentialRotation.waiterDelaySeconds * CredentialRotation.waiterMaxAttempts :=
          Nat.mul_le_mul_left _ hb
      _ = 1800 := by decide

/-- C9: the dual-slot credential record is created exactly once at
deployment time, in the shape `{active_slot, A, B}` with `active_slot = "A"`
(one of the two slot names, so exactly one slot is active), the password of
both slot records set to the placeholder value, and both slots carrying
username, host, port and dbname fields. -/
theorem create_rotation_slot_secrets_shape (hostname : String) :
    (CredentialRotation.deployment_slot_secret_creations hostname).length = 1 ∧
    CredentialRotation.create_rotation_slot_secrets (some hostname) =
      .ok (CredentialRotation.rotation_slot_secret_payload hostname) ∧
    (CredentialRotation.rotation_slot_secret_payload hostname).active_slot = "A" ∧
    ((CredentialRotation.rotation_slot_secret_payload hostname).active_slot = "A" ∨
      (CredentialRotation.rotation_slot_secret_payload hostname).active_slot = "B") ∧
    CredentialRotation.standby_slot
      (CredentialRotation.rotation_slot_secret_payload hostname).active_slot ≠
      (CredentialRotation.rotation_slot_secret_payload hostname).active_slot ∧
    (CredentialRotation.rotation_slot_secret_payload hostname).A =
      { username := "openemr_a", password := "placeholder", host := hostname,
        port := "3306", dbname := "openemr" } ∧
    (CredentialRotation.rotation_slot_secret_payload hostname).B =
      { username := "openemr_b", password := "placeholder", host := hostname,
        port := "3306", dbname := "openemr" } := by
  refine ⟨rfl, rfl, rfl, Or.inl rfl, ?_, rfl, rfl⟩
  intro h
  exact absurd h (by simp [CredentialRotation.standby_slot,
    CredentialRotation.rotation_slot_secret_payload])

/-- C10: `create_rotation_slot_secrets` raises a `ValueError` (producing no
secret) exactly when the database cluster has not been created
(`db_instance` unset); when the cluster exists it returns the created
dual-slot secret and never raises. -/
theorem create_rotation_slot_secrets_requires_cluster (db_instance : Option String) :
    ((∃ e, CredentialRotation.create_rotation_slot_secrets db_instance = .error e) ↔
      db_instance = none) ∧
    (∀ h, db_instance = some h →
      CredentialRotation.create_rotation_slot_secrets db_instance =
        .ok (CredentialRotation.rotation_slot_secret_payload h)) := by
  rcases db_instance with _ | h
  · exact ⟨by simp [CredentialRotation.create_rotation_slot_secrets], by intro h hx; cases hx⟩
  · refine ⟨by simp [CredentialRotation.create_rotation_slot_secrets], ?_⟩
    intro h2 hx
    cases hx
    rfl

/-- Witness for C10 at concrete inputs: with no cluster the call errors, and
with a cluster at hostname `db.cluster.local` it returns the payload. -/
theorem create_rotation_slot_secrets_requires_cluster_witness :
    (∃ e, CredentialRotation.create_rotation_slot_secrets none = .error e) ∧
    CredentialRotation.create_rotation_slot_secrets (some "db.cluster.local") =
      .ok (CredentialRotation.rotation_slot_secret_payload "db.cluster.local") :=
  ⟨(create_rotation_slot_secrets_requires_cluster none).1.mpr rfl,
   (create_rotation_slot_secrets_requires_cluster (some "db.cluster.local")).2
     "db.cluster.local" rfl⟩

/-- Witness for C7 at a concrete mount root and one-file filesystem: on the
filesystem where exactly `/efs/sites/default/sqlconf.php` exists, discovery
at `/efs/sites` succeeds with that path and no cache path, and discovery at
`/other` reports an error. -/
theorem discover_runtime_paths_spec_witness :
    (∀ r, CredentialRotation.discover_runtime_paths
        (fun p => p = "/efs/sites/default/sqlconf.php") "/efs/sites" = .ok r →
      r.sqlconf_path = "/efs/sites" ++ "/default/sqlconf.php" ∧ r.cache_config_path = none) ∧
    (∃ e, CredentialRotation.discover_runtime_paths
        (fun p => p = "/efs/sites/default/sqlconf.php") "/other" = .error e) := by
  constructor
  · exact (discover_runtime_paths_spec (fun p => decide (p = "/efs/sites/default/sqlconf.php")) "/efs/sites").2
  · exact ((discover_runtime_paths_spec (fun p => decide (p = "/efs/sites/default/sqlconf.php")) "/other").1).2 (by decide)

/-- C1: for every `atomic_write` call interrupted at any point, the target
file's bytes are never a partial write: if the crash happens before the
rename step (at most the temp write and sync completed), the target is
byte-for-byte the pre-call file; once the rename has happened the target's
bytes are exactly the new content; and in every case the observed bytes are
one of the two.  A run that also completes the final ownership-restore step
leaves the new bytes under the original owner and permission bits. -/
theorem atomic_write_crash_safe (orig : CredentialRotation.EditorFile)
    (new_bytes tool_owner : String) (tool_mode completed : Nat) :
    (completed ≤ 2 →
      (CredentialRotation.atomic_write_crash orig new_bytes tool_owner tool_mode
        completed).target = orig) ∧
    (3 ≤ completed →
      (CredentialRotation.atomic_write_crash orig new_bytes tool_owner tool_mode
        completed).target.bytes = new_bytes) ∧
    ((CredentialRotation.atomic_write_crash orig new_bytes tool_owner tool_mode
        completed).target.bytes = orig.bytes ∨
      (CredentialRotation.atomic_write_crash orig new_bytes tool_owner tool_mode
        completed).target.bytes = new_bytes) ∧
    (4 ≤ completed →
      (CredentialRotation.atomic_write_crash orig new_bytes tool_owner tool_mode
        completed).target =
        { bytes := new_bytes, owner := orig.owner, mode := orig.mode }) := by
  match completed with
  | 0 =>
    refine ⟨fun _ => rfl, fun h => absurd h (by decide), Or.inl rfl, fun h => absurd h (by decide)⟩
  | 1 =>
    refine ⟨fun _ => rfl, fun h => absurd h (by decide), Or.inl rfl, fun h => absurd h (by decide)⟩
  | 2 =>
    refine ⟨fun _ => rfl, fun h => absurd h (by decide), Or.inl rfl, fun h => absurd h (by decide)⟩
  | 3 =>
    refine ⟨fun h => absurd h (by decide), fun _ => rfl, Or.inr rfl, fun h => absurd h (by decide)⟩
  | n + 4 =>
    have hfull : CredentialRotation.atomic_write_crash orig new_bytes tool_owner tool_mode
        (n + 4) =
        CredentialRotation.atomic_write_crash orig new_bytes tool_owner tool_mode 4 := by
      unfold CredentialRotation.atomic_write_crash CredentialRotation.atomicWriteSteps
      rw [List.take_of_length_le (by simp), List.take_of_length_le (by simp)]
    refine ⟨fun h => absurd h (by omega), fun _ => ?_, Or.inr ?_, fun _ => ?_⟩
    · rw [hfull]; rfl
    · rw [hfull]; rfl
    · rw [hfull]; rfl

/-- Witness for C1 at a concrete file and crash points: crashing after the
sync (2 completed steps) leaves the original file intact, and crashing right
after the rename (3 completed steps) leaves exactly the new bytes. -/
theorem atomic_write_crash_safe_witness :
    (CredentialRotation.atomic_write_crash
        { bytes := "old", owner := "apache", mode := 400 } "new" "root" 600 2).target =
      { bytes := "old", owner := "apache", mode := 400 } ∧
    (CredentialRotation.atomic_write_crash
        { bytes := "old", owner := "apache", mode := 400 } "new" "root" 600 3).target.bytes =
      "new" :=
  ⟨(atomic_write_crash_safe { bytes := "old", owner := "apache", mode := 400 }
      "new" "root" 600 2).1 (by decide),
   ((atomic_write_crash_safe { bytes := "old", owner := "apache", mode := 400 }
      "new" "root" 600 3).2).1 (by decide)⟩

/-- C6: a `dry_run=True` invocation, on every reconciliation branch,
produces an empty effect trace — in particular zero calls to the atomic
file editor, the database user reconciler, the application refresher and
the secret-store write path — leaves the world (file, secret store,
database users) unchanged, and only reports the plan. -/
theorem rotate_dry_run_pure (ctx : CredentialRotation.RotationContext)
    (w : CredentialRotation.World) (np : String) (f : CredentialRotation.Failures)
    (h : ctx.dry_run = true) :
    CredentialRotation.rotate ctx w np f = (w, [], .dryRunPlanned) ∧
    ((CredentialRotation.rotate ctx w np f).2.1.filter
      CredentialRotation.Effect.isMutation) = [] := by
  unfold CredentialRotation.rotate
  rw [if_pos h]
  exact ⟨rfl, rfl⟩

/-- Witness for C6: on the concrete dry-run context below, taken over the
disk-matches-active world, the run changes nothing and traces nothing. -/
theorem rotate_dry_run_pure_witness :
    CredentialRotation.rotate
      { region := "us-east-1", rds_slots_secret_id := "rds", rds_admin_secret_id := "admin",
        sites_mount_root := "/efs/sites", ecs_cluster_name := "cluster",
        ecs_service_name := "service", openemr_health_url := none, dry_run := true }
      { file := { creds := { username := "openemr_a", password := "pass-a", host := "db-a",
                             port := "3306", dbname := "openemr" }, rest := "<?php" },
        secret := { active_slot := "A",
                    A := { username := "openemr_a", password := "pass-a", host := "db-a",
                           port := "3306", dbname := "openemr" },
                    B := { username := "openemr_b", password := "pass-b", host := "db-b",
                           port := "3306", dbname := "openemr" } },
        dbUsers := [] }
      "np" CredentialRotation.noFailures =
      ({ file := { creds := { username := "openemr_a", password := "pass-a", host := "db-a",
                              port := "3306", dbname := "openemr" }, rest := "<?php" },
         secret := { active_slot := "A",
                     A := { username := "openemr_a", password := "pass-a", host := "db-a",
                            port := "3306", dbname := "openemr" },
                     B := { username := "openemr_b", password := "pass-b", host := "db-b",
                            port := "3306", dbname := "openemr" } },
         dbUsers := [] }, [], .dryRunPlanned) :=
  (rotate_dry_run_pure _ _ "np" CredentialRotation.noFailures rfl).1

/-- C3: after every rotation run that committed or rolled back, the on-disk
config file's credentials equal the slot record named by `active_slot` in
the secret store — and when the two slot records differ they equal only
that one, not the standby's. -/
theorem rotate_disk_secret_invariant (ctx : CredentialRotation.RotationContext)
    (w : CredentialRotation.World) (np : String) (f : CredentialRotation.Failures)
    (h : (CredentialRotation.rotate ctx w np f).2.2 = .committed ∨
      (CredentialRotation.rotate ctx w np f).2.2 = .rolledBack) :
    (CredentialRotation.rotate ctx w np f).1.file.creds =
      (CredentialRotation.rotate ctx w np f).1.secret.slot
        (CredentialRotation.rotate ctx w np f).1.secret.active_slot ∧
    ((CredentialRotation.rotate ctx w np f).1.secret.slot
        (CredentialRotation.standby_slot
          (CredentialRotation.rotate ctx w np f).1.secret.active_slot) ≠
      (CredentialRotation.rotate ctx w np f).1.secret.slot
        (CredentialRotation.rotate ctx w np f).1.secret.active_slot →
      (CredentialRotation.rotate ctx w np f).1.file.creds ≠
        (CredentialRotation.rotate ctx w np f).1.secret.slot
          (CredentialRotation.standby_slot
            (CredentialRotation.rotate ctx w np f).1.secret.active_slot)) := by
  have heq : (CredentialRotation.rotate ctx w np f).1.file.creds =
      (CredentialRotation.rotate ctx w np f).1.secret.slot
        (CredentialRotation.rotate ctx w np f).1.secret.active_slot := by
    have hrec := CredentialRotation.reconcile_disk_matches_active ctx w
    unfold CredentialRotation.rotate at h ⊢
    by_cases hdry : ctx.dry_run
    · rw [if_pos hdry] at h
      simp at h
    · rw [if_neg hdry] at h ⊢
      by_cases h1 : f.provision_fails
      · rw [if_pos h1] at h
        simp at h
      · rw [if_neg h1] at h ⊢
        by_cases h2 : f.standby_validation_fails
        · rw [if_pos h2] at h
          simp at h
        · rw [if_neg h2] at h ⊢
          by_cases h3 : f.refresh_fails
          · rw [if_pos h3]
            show w.file.creds =
              (CredentialRotation.provisionedSecret ctx w np).slot
                (CredentialRotation.provisionedSecret ctx w np).active_slot
            rw [CredentialRotation.provisionedSecret_active,
              CredentialRotation.provisionedSecret_slot_active]
            exact hrec
          · rw [if_neg h3] at h ⊢
            by_cases h4 : f.post_validation_fails
            · rw [if_pos h4]
              show w.file.creds =
                (CredentialRotation.provisionedSecret ctx w np).slot
                  (CredentialRotation.provisionedSecret ctx w np).active_slot
              rw [CredentialRotation.provisionedSecret_active,
                CredentialRotation.provisionedSecret_slot_active]
              exact hrec
            · rw [if_neg h4] at h ⊢
              by_cases h5 : f.commit_put_fails
              · rw [if_pos h5] at h
                simp at h
              · rw [if_neg h5]
                show (CredentialRotation.flippedFile ctx w np).creds =
                  (CredentialRotation.committedSecret ctx w np).slot
                    (CredentialRotation.committedSecret ctx w np).active_slot
                rw [CredentialRotation.committedSecret_slot]
                rfl
  exact ⟨heq, fun hne hc => absurd (hc.symm.trans heq) hne⟩

/-- C2: whenever a validation after the on-disk flip fails (the application
refresh times out, or the post-refresh health/connectivity validation
fails), the run rolls back: the config file ends exactly equal to the
content captured before the flip, the trace ends with the rollback
sequence — an atomic restore of that content followed by another forced
application refresh — after an earlier application refresh, and
`active_slot` in the secret store is left at its reconciled pre-flip
value. -/
theorem rotate_rollback_restores (ctx : CredentialRotation.RotationContext)
    (w : CredentialRotation.World) (np : String) (f : CredentialRotation.Failures)
    (hdry : ctx.dry_run = false)
    (hp : f.provision_fails = false)
    (hs : f.standby_validation_fails = false)
    (hfail : f.refresh_fails = true ∨ f.post_validation_fails = true) :
    (CredentialRotation.rotate ctx w np f).2.2 = .rolledBack ∧
    (CredentialRotation.rotate ctx w np f).1.file = w.file ∧
    (CredentialRotation.rotate ctx w np f).1.secret.active_slot =
      (CredentialRotation.reconcile ctx w).1.active_slot ∧
    ∃ tr, (CredentialRotation.rotate ctx w np f).2.1 =
        tr ++ [.atomicWrite w.file,
          .appRefresh ctx.ecs_cluster_name ctx.ecs_service_name,
          .validateRds ((CredentialRotation.provisionedSecret ctx w np).slot
            (CredentialRotation.reconcile ctx w).1.active_slot)] ∧
      CredentialRotation.Effect.appRefresh ctx.ecs_cluster_name ctx.ecs_service_name ∈ tr := by
  unfold CredentialRotation.rotate
  rw [if_neg (by simp [hdry]), if_neg (by simp [hp]), if_neg (by simp [hs])]
  by_cases h3 : f.refresh_fails
  · rw [if_pos h3]
    refine ⟨rfl, rfl, CredentialRotation.provisionedSecret_active ctx w np, ?_⟩
    refine ⟨CredentialRotation.flipTrace ctx w np, rfl, ?_⟩
    simp [CredentialRotation.flipTrace]
  · rw [if_neg h3, if_pos (by rcases hfail with hf | hf; exact absurd hf (by simp [h3]); exact hf)]
    refine ⟨rfl, rfl, CredentialRotation.provisionedSecret_active ctx w np, ?_⟩
    refine ⟨CredentialRotation.flipTrace ctx w np ++ CredentialRotation.healthTrace ctx w np,
      ?_, ?_⟩
    · rfl
    · simp [CredentialRotation.flipTrace]

/-- C4: when the on-disk credentials match the standby slot (and not the
active one), reconciliation flips `active_slot` in the secret store to the
disk-indicated slot — the very first effect is that secret write, with both
slot records unchanged — and the run then proceeds with rotation to
completion; the disk is treated as authoritative: the only file write of
the whole run is the later flip to the freshly provisioned credentials,
never a rewrite back to the old bookkeeping. -/
theorem rotate_standby_match_reconciles (ctx : CredentialRotation.RotationContext)
    (w : CredentialRotation.World) (np : String)
    (hdry : ctx.dry_run = false)
    (hne : w.file.creds ≠ w.secret.slot w.secret.active_slot)
    (hstand : w.file.creds =
      w.secret.slot (CredentialRotation.standby_slot w.secret.active_slot)) :
    (CredentialRotation.reconcile ctx w).1 =
      { w.secret with active_slot := CredentialRotation.standby_slot w.secret.active_slot } ∧
    (CredentialRotation.reconcile ctx w).2 =
      [.secretPut ctx.rds_slots_secret_id
        { w.secret with active_slot := CredentialRotation.standby_slot w.secret.active_slot }] ∧
    (CredentialRotation.rotate ctx w np CredentialRotation.noFailures).2.1.head? =
      some (.secretPut ctx.rds_slots_secret_id
        { w.secret with active_slot := CredentialRotation.standby_slot w.secret.active_slot }) ∧
    (CredentialRotation.rotate ctx w np CredentialRotation.noFailures).2.2 = .committed ∧
    (CredentialRotation.rotate ctx w np CredentialRotation.noFailures).2.1.filter
        CredentialRotation.Effect.isFileWrite =
      [.atomicWrite { creds := { w.secret.slot w.secret.active_slot with password := np },
                      rest := w.file.rest }] := by
  have hrec1 : (CredentialRotation.reconcile ctx w).1 =
      { w.secret with active_slot := CredentialRotation.standby_slot w.secret.active_slot } := by
    unfold CredentialRotation.reconcile
    rw [if_neg hne, if_pos hstand]
  have hrec2 : (CredentialRotation.reconcile ctx w).2 =
      [.secretPut ctx.rds_slots_secret_id
        { w.secret with active_slot := CredentialRotation.standby_slot w.secret.active_slot }] := by
    unfold CredentialRotation.reconcile
    rw [if_neg hne, if_pos hstand]
    simp [hdry]
  have hcred : CredentialRotation.provisionedCred ctx w np =
      { w.secret.slot w.secret.active_slot with password := np } := by
    unfold CredentialRotation.provisionedCred CredentialRotation.rotationTarget
    rw [hrec1]
    show { ({ w.secret with
        active_slot := CredentialRotation.standby_slot w.secret.active_slot } :
        CredentialRotation.SlotsPayload).slot
          (CredentialRotation.standby_slot
            (CredentialRotation.standby_slot w.secret.active_slot)) with password := np } = _
    rw [CredentialRotation.slot_set_active, CredentialRotation.slot_standby_standby]
  refine ⟨hrec1, hrec2, ?_, ?_, ?_⟩
  · rw [CredentialRotation.rotate_noFailures_eq ctx w np hdry]
    simp [CredentialRotation.flipTrace, CredentialRotation.preFlipTrace, hrec2]
  · rw [CredentialRotation.rotate_noFailures_eq ctx w np hdry]
  · rw [CredentialRotation.rotate_noFailures_eq ctx w np hdry]
    rcases hurl : ctx.openemr_health_url with _ | u <;>
      simp [CredentialRotation.flipTrace, CredentialRotation.preFlipTrace,
        CredentialRotation.healthTrace, CredentialRotation.flippedFile, hrec2, hurl, hcred,
        CredentialRotation.Effect.isFileWrite]

/-- C5: when the on-disk credentials match neither slot, the run
bootstraps: the disk's current credentials are written into the slot
currently marked active (whose name is unchanged, the other slot
untouched) and persisted to the secret store as the first effect; the run
then proceeds to rotate the standby slot — it upserts the standby slot's
database user and commits with `active_slot` flipped to the standby
slot. -/
theorem rotate_neither_match_bootstraps (ctx : CredentialRotation.RotationContext)
    (w : CredentialRotation.World) (np : String)
    (hdry : ctx.dry_run = false)
    (hne1 : w.file.creds ≠ w.secret.slot w.secret.active_slot)
    (hne2 : w.file.creds ≠
      w.secret.slot (CredentialRotation.standby_slot w.secret.active_slot)) :
    (CredentialRotation.reconcile ctx w).1.active_slot = w.secret.active_slot ∧
    (CredentialRotation.reconcile ctx w).1.slot w.secret.active_slot = w.file.creds ∧
    (CredentialRotation.reconcile ctx w).1.slot
        (CredentialRotation.standby_slot w.secret.active_slot) =
      w.secret.slot (CredentialRotation.standby_slot w.secret.active_slot) ∧
    (CredentialRotation.reconcile ctx w).2 =
      [.secretPut ctx.rds_slots_secret_id
        (w.secret.setSlot w.secret.active_slot w.file.creds)] ∧
    (CredentialRotation.rotate ctx w np CredentialRotation.noFailures).2.2 = .committed ∧
    CredentialRotation.Effect.upsertDbUser
        (w.secret.slot (CredentialRotation.standby_slot w.secret.active_slot)).username np ∈
      (CredentialRotation.rotate ctx w np CredentialRotation.noFailures).2.1 ∧
    (CredentialRotation.rotate ctx w np CredentialRotation.noFailures).1.secret.active_slot =
      CredentialRotation.standby_slot w.secret.active_slot := by
  have hrec1 : (CredentialRotation.reconcile ctx w).1 =
      w.secret.setSlot w.secret.active_slot w.file.creds := by
    unfold CredentialRotation.reconcile
    rw [if_neg hne1, if_neg hne2]
  have hrec2 : (CredentialRotation.reconcile ctx w).2 =
      [.secretPut ctx.rds_slots_secret_id
        (w.secret.setSlot w.secret.active_slot w.file.creds)] := by
    unfold CredentialRotation.reconcile
    rw [if_neg hne1, if_neg hne2]
    simp [hdry]
  have hcredname : (CredentialRotation.provisionedCred ctx w np).username =
      (w.secret.slot (CredentialRotation.standby_slot w.secret.active_slot)).username := by
    unfold CredentialRotation.provisionedCred CredentialRotation.rotationTarget
    rw [hrec1, CredentialRotation.active_setSlot, CredentialRotation.slot_setSlot_other]
  refine ⟨by rw [hrec1, CredentialRotation.active_setSlot],
    by rw [hrec1, CredentialRotation.slot_setSlot_same],
    by rw [hrec1, CredentialRotation.slot_setSlot_other], hrec2, ?_, ?_, ?_⟩
  · rw [CredentialRotation.rotate_noFailures_eq ctx w np hdry]
  · rw [CredentialRotation.rotate_noFailures_eq ctx w np hdry, ← hcredname]
    simp [CredentialRotation.flipTrace, CredentialRotation.preFlipTrace]
  · rw [CredentialRotation.rotate_noFailures_eq ctx w np hdry]
    show (CredentialRotation.committedSecret ctx w np).active_slot = _
    show CredentialRotation.rotationTarget ctx w = _
    unfold CredentialRotation.rotationTarget
    rw [hrec1, CredentialRotation.active_setSlot]

/-- Witness for C2 at concrete inputs: with a refresh timeout on the
steady-state world, the run rolls back and the file equals its pre-call
content. -/
theorem rotate_rollback_restores_witness :
    (CredentialRotation.rotate CredentialRotation.exCtx CredentialRotation.exWorld "np"
        CredentialRotation.exRefreshFail).2.2 = .rolledBack ∧
    (CredentialRotation.rotate CredentialRotation.exCtx CredentialRotation.exWorld "np"
        CredentialRotation.exRefreshFail).1.file = CredentialRotation.exWorld.file :=
  ⟨(rotate_rollback_restores CredentialRotation.exCtx CredentialRotation.exWorld "np"
      CredentialRotation.exRefreshFail rfl rfl rfl (Or.inl rfl)).1,
   (rotate_rollback_restores CredentialRotation.exCtx CredentialRotation.exWorld "np"
      CredentialRotation.exRefreshFail rfl rfl rfl (Or.inl rfl)).2.1⟩

/-- Witness for C3 at concrete inputs: the fully successful run on the
steady-state world commits, and afterwards the disk credentials equal the
slot record named by `active_slot`. -/
theorem rotate_disk_secret_invariant_witness :
    ((CredentialRotation.rotate CredentialRotation.exCtx CredentialRotation.exWorld "np"
        CredentialRotation.noFailures).2.2 = .committed ∨
      (CredentialRotation.rotate CredentialRotation.exCtx CredentialRotation.exWorld "np"
        CredentialRotation.noFailures).2.2 = .rolledBack) ∧
    (CredentialRotation.rotate CredentialRotation.exCtx CredentialRotation.exWorld "np"
        CredentialRotation.noFailures).1.file.creds =
      (CredentialRotation.rotate CredentialRotation.exCtx CredentialRotation.exWorld "np"
        CredentialRotation.noFailures).1.secret.slot
        (CredentialRotation.rotate CredentialRotation.exCtx CredentialRotation.exWorld "np"
          CredentialRotation.noFailures).1.secret.active_slot :=
  ⟨Or.inl rfl,
   (rotate_disk_secret_invariant CredentialRotation.exCtx CredentialRotation.exWorld "np"
      CredentialRotation.noFailures (Or.inl rfl)).1⟩

/-- Witness for C4 at concrete inputs: on the disk-matches-standby world the
first effect flips `active_slot` to `"B"` in the secret store and the run
commits. -/
theorem rotate_standby_match_reconciles_witness :
    (CredentialRotation.rotate CredentialRotation.exCtx CredentialRotation.exWorldStandby "np"
        CredentialRotation.noFailures).2.1.head? =
      some (.secretPut "rds"
        { CredentialRotation.exSecret with
            active_slot := CredentialRotation.standby_slot "A" }) ∧
    (CredentialRotation.rotate CredentialRotation.exCtx CredentialRotation.exWorldStandby "np"
        CredentialRotation.noFailures).2.2 = .committed :=
  ⟨(rotate_standby_match_reconciles CredentialRotation.exCtx CredentialRotation.exWorldStandby
      "np" rfl (by decide) (by decide)).2.2.1,
   (rotate_standby_match_reconciles CredentialRotation.exCtx CredentialRotation.exWorldStandby
      "np" rfl (by decide) (by decide)).2.2.2.1⟩

/-- Witness for C5 at concrete inputs: on the matches-neither world the
disk's credentials are captured into active slot A, and the run commits
with `active_slot` flipped to `"B"`. -/
theorem rotate_neither_match_bootstraps_witness :
    (CredentialRotation.reconcile CredentialRotation.exCtx
        CredentialRotation.exWorldNeither).1.slot "A" =
      CredentialRotation.exWorldNeither.file.creds ∧
    (CredentialRotation.rotate CredentialRotation.exCtx CredentialRotation.exWorldNeither "np"
        CredentialRotation.noFailures).1.secret.active_slot =
      CredentialRotation.standby_slot "A" :=
  ⟨(rotate_neither_match_bootstraps CredentialRotation.exCtx
      CredentialRotation.exWorldNeither "np" rfl (by decide) (by decide)).2.1,
   (rotate_neither_match_bootstraps CredentialRotation.exCtx
      CredentialRotation.exWorldNeither "np" rfl (by decide) (by decide)).2.2.2.2.2.2⟩

/-- Witness for C8 at a concrete stability oracle: the first call is the
forced redeployment, and with the service stable at the fourth polling
attempt the wait succeeds. -/
theorem force_new_ecs_deployment_spec_witness :
    (CredentialRotation.force_new_ecs_deployment (fun k => k = 3) "us-east-1"
        "openemr-cluster" "openemr-service").1.head? =
      some (.update_service "openemr-cluster" "openemr-service" true) ∧
    (CredentialRotation.force_new_ecs_deployment (fun k => k = 3) "us-east-1"
        "openemr-cluster" "openemr-service").2.isOk = true :=
  ⟨(force_new_ecs_deployment_spec (fun k => decide (k = 3)) "us-east-1"
      "openemr-cluster" "openemr-service").1,
   ((force_new_ecs_deployment_spec (fun k => decide (k = 3)) "us-east-1"
      "openemr-cluster" "openemr-service").2.1).mpr ⟨3, by decide, by decide⟩⟩

/-- Witness for C9 at a concrete hostname: the created payload has
`active_slot = "A"` and placeholder passwords in both slots. -/
theorem create_rotation_slot_secrets_shape_witness :
    (CredentialRotation.rotation_slot_secret_payload "db.cluster.example").active_slot = "A" ∧
    (CredentialRotation.rotation_slot_secret_payload "db.cluster.example").A.password =
      "placeholder" ∧
    (CredentialRotation.rotation_slot_secret_payload "db.cluster.example").B.password =
      "placeholder" :=
  ⟨(create_rotation_slot_secrets_shape "db.cluster.example").2.2.1,
   congrArg CredentialRotation.Cred.password
     (create_rotation_slot_secrets_shape "db.cluster.example").2.2.2.2.2.1,
   congrArg CredentialRotation.Cred.password
     (create_rotation_slot_secrets_shape "db.cluster.example").2.2.2.2.2.2⟩
